import Mathlib

/-!
# Verification of the mandacafe backend against its specification

Shallow embedding of the restaurant-menu backend (Express/Node.js):
the in-memory metrics aggregator (`middleware/metrics.js`), the
JSON-file and Prisma persistence layers (`models/database.js`,
`models/prismaDatabase.js`) and the admin/menu controllers
(`controllers/adminControllerPrisma.js`, public menu query).

JavaScript numbers are modelled as exact rationals (`ℚ`); timestamps in
milliseconds as integers (`ℤ`); JSON body values as an explicit sum type
`JsVal` so that JavaScript truthiness and `Boolean()` / `parseFloat()` /
`parseInt()` coercions are explicit.
-/

namespace Mandacafe

/-! ## Metrics aggregator state (middleware/metrics.js, `metrics` object) -/

/-- The `metrics` module-level object of `middleware/metrics.js`, restricted to
the scalar counters the spec's aggregator claims are about.  The JS objects
`byMethod`/`byStatus`/`byEndpoint`/`byType` (maps with default-0 lookup) are
modelled as total functions `String → ℕ` / `ℕ → ℕ`. -/
structure Metrics where
  total : ℕ
  byMethod : String → ℕ
  byEndpoint : String → ℕ
  byStatus : ℕ → ℕ
  averageResponseTime : ℚ
  slowRequests : ℕ
  fastRequests : ℕ
  errorsTotal : ℕ
  errorsByType : String → ℕ
  dbQueries : ℕ
  averageQueryTime : ℚ
  dbSlowQueries : ℕ

/-- Initial value of the `metrics` object (all counters zero). -/
def initMetrics : Metrics where
  total := 0
  byMethod := fun _ => 0
  byEndpoint := fun _ => 0
  byStatus := fun _ => 0
  averageResponseTime := 0
  slowRequests := 0
  fastRequests := 0
  errorsTotal := 0
  errorsByType := fun _ => 0
  dbQueries := 0
  averageQueryTime := 0
  dbSlowQueries := 0

/-- `metricsCollector` middleware, part run at request start: increments
`requests.total`, `requests.byMethod[method]`, `requests.byEndpoint[endpoint]`. -/
def recordRequestStart (method endpoint : String) (m : Metrics) : Metrics :=
  { m with
    total := m.total + 1
    byMethod := fun s => if s = method then m.byMethod s + 1 else m.byMethod s
    byEndpoint := fun s => if s = endpoint then m.byEndpoint s + 1 else m.byEndpoint s }

/-- `updatePerformanceMetrics(responseTime)`: incremental-mean update of
`performance.averageResponseTime` using the current `requests.total`, then
slow/fast classification against the 1000 ms threshold. -/
def updatePerformanceMetrics (responseTime : ℚ) (m : Metrics) : Metrics :=
  let m' := { m with
    averageResponseTime :=
      (m.averageResponseTime * ((m.total : ℚ) - 1) + responseTime) / (m.total : ℚ) }
  if responseTime > 1000 then
    { m' with slowRequests := m'.slowRequests + 1 }
  else
    { m' with fastRequests := m'.fastRequests + 1 }

/-- `metricsCollector` middleware, part run on response `finish`: increments the
status-code counter and runs `updatePerformanceMetrics`. -/
def recordRequestFinish (responseTime : ℚ) (statusCode : ℕ) (m : Metrics) : Metrics :=
  updatePerformanceMetrics responseTime
    { m with byStatus := fun s => if s = statusCode then m.byStatus s + 1 else m.byStatus s }

/-- One sequential request: record the start, then the finish with the given
elapsed duration (no interleaving with other requests). -/
def recordRequest (d : ℚ) (m : Metrics) : Metrics :=
  recordRequestFinish d 200 (recordRequestStart ("GET") ("/") m)

/-- A sequence of requests recorded sequentially, starting from a given state. -/
def recordRequests (m : Metrics) (ds : List ℚ) : Metrics :=
  ds.foldl (fun acc d => recordRequest d acc) m

/-! ## Error records and 24-hour pruning (`errorMetrics` middleware) -/

/-- One entry of `metrics.errors.last24h`; the timestamp is a
millisecond clock reading (`Date` value). -/
structure ErrorEntry where
  timestamp : ℤ
  type : String
  message : String
  url : String
  method : String
  ip : String
deriving DecidableEq

/-- Milliseconds in 24 hours (`24 * 60 * 60 * 1000`). -/
def oneDayMs : ℤ := 24 * 60 * 60 * 1000

/-- `errorMetrics` middleware action on the `last24h` list: push the new entry
(timestamped `now`), then keep only entries with `timestamp > now - 24h`. -/
def errorMetricsStep (now : ℤ) (e : ErrorEntry) (l : List ErrorEntry) : List ErrorEntry :=
  (l ++ [{ e with timestamp := now }]).filter (fun err => now - oneDayMs < err.timestamp)

/-! ## Health verdict (`getHealthStatus`) -/

/-- Result of `getHealthStatus`, restricted to the fields the spec's verdict
claim is about: the overall `status` string and the `issues` list (empty when
the status is `OK`; in the JS object the field is then absent). -/
structure HealthStatus where
  status : String
  issues : List String
deriving DecidableEq

/-- `getHealthStatus`, as a function of the live metrics and the process
memory-usage reading (`heapUsed`/`heapTotal` in bytes).  Mirrors the three
threshold checks pushing onto `criticalIssues` and the final status switch. -/
def getHealthStatus (m : Metrics) (heapUsed heapTotal : ℚ) : HealthStatus :=
  let errorRate : ℚ := (m.errorsTotal : ℚ) / (max m.total 1 : ℕ)
  let memUsagePercent : ℚ := heapUsed / heapTotal
  let criticalIssues : List String :=
    (if m.averageResponseTime > 2000 then ["High average response time"] else []) ++
    (if errorRate > 0.05 then ["High error rate"] else []) ++
    (if memUsagePercent > 0.9 then ["High memory usage"] else [])
  if criticalIssues.length > 0 then
    { status := "WARNING", issues := criticalIssues }
  else
    { status := "OK", issues := [] }

/-! ## Lemmas about the aggregator -/

theorem recordRequest_total (d : ℚ) (m : Metrics) :
    (recordRequest d m).total = m.total + 1 := by
  simp only [recordRequest, recordRequestFinish, recordRequestStart, updatePerformanceMetrics]
  split <;> rfl

theorem recordRequest_avg (d : ℚ) (m : Metrics) :
    (recordRequest d m).averageResponseTime
      = (m.averageResponseTime * (m.total : ℚ) + d) / ((m.total : ℚ) + 1) := by
  simp only [recordRequest, recordRequestFinish, recordRequestStart, updatePerformanceMetrics]
  split <;> simp

theorem recordRequests_total (ds : List ℚ) (m : Metrics) :
    (recordRequests m ds).total = m.total + ds.length := by
  induction ds generalizing m with
  | nil => simp [recordRequests]
  | cons d ds ih =>
      simp only [recordRequests, List.foldl_cons] at *
      rw [ih, recordRequest_total, List.length_cons]
      omega

theorem recordRequests_avg_mul (ds : List ℚ) (m : Metrics) :
    (recordRequests m ds).averageResponseTime * ((m.total : ℚ) + ds.length)
      = m.averageResponseTime * m.total + ds.sum := by
  induction ds generalizing m with
  | nil => simp [recordRequests]
  | cons d ds ih =>
      simp only [recordRequests, List.foldl_cons] at *
      have h := ih (recordRequest d m)
      rw [recordRequest_total, recordRequest_avg] at h
      have hne : ((m.total : ℚ) + 1) ≠ 0 := by positivity
      push_cast at h
      rw [div_mul_cancel₀ _ hne] at h
      rw [List.length_cons, List.sum_cons]
      push_cast
      calc (recordRequests (recordRequest d m) ds).averageResponseTime *
              ((m.total : ℚ) + (ds.length + 1))
          = (recordRequests (recordRequest d m) ds).averageResponseTime *
              ((m.total : ℚ) + 1 + ds.length) := by ring_nf
        _ = m.averageResponseTime * m.total + d + ds.sum := h
        _ = m.averageResponseTime * m.total + (d + ds.sum) := by ring

/-- C1: for every sequence of request durations recorded sequentially
(start then finish, no interleaving), starting from the fresh aggregator,
the running average response time after the last finish equals the
arithmetic mean of the recorded durations. -/
theorem averageResponseTime_eq_mean (ds : List ℚ) (h : ds ≠ []) :
    (recordRequests initMetrics ds).averageResponseTime = ds.sum / ds.length := by
  have hmul := recordRequests_avg_mul ds initMetrics
  simp only [initMetrics, Nat.cast_zero, zero_add, zero_mul] at hmul
  have hlen : (ds.length : ℚ) ≠ 0 := by
    exact_mod_cast Nat.pos_iff_ne_zero.mp (List.length_pos.mpr h)
  rw [eq_div_iff hlen]
  simpa using hmul

/-- Witness for C1 at the concrete duration sequence `[100, 250, 400]`. -/
theorem averageResponseTime_eq_mean_witness :
    ([100, 250, 400] : List ℚ) ≠ [] ∧
      (recordRequests initMetrics [100, 250, 400]).averageResponseTime
        = ([100, 250, 400] : List ℚ).sum / (([100, 250, 400] : List ℚ).length : ℚ) :=
  ⟨by simp, averageResponseTime_eq_mean [100, 250, 400] (by simp)⟩

/-- C2: the health verdict is `"WARNING"` iff at least one of the three
threshold conditions holds (average response time > 2000 ms, error rate
`errors.total / max(requests.total, 1)` > 0.05, heap-used/heap-total > 0.9),
and `"OK"` otherwise; the issues list contains exactly the triggered
conditions (and no duplicates). -/
theorem getHealthStatus_warning_iff (m : Metrics) (heapUsed heapTotal : ℚ) :
    ((getHealthStatus m heapUsed heapTotal).status = "WARNING" ↔
      (m.averageResponseTime > 2000 ∨
        (m.errorsTotal : ℚ) / max (m.total : ℚ) 1 > 0.05 ∨
        heapUsed / heapTotal > 0.9)) ∧
    ((getHealthStatus m heapUsed heapTotal).status = "OK" ↔
      ¬(m.averageResponseTime > 2000 ∨
        (m.errorsTotal : ℚ) / max (m.total : ℚ) 1 > 0.05 ∨
        heapUsed / heapTotal > 0.9)) ∧
    (∀ s, s ∈ (getHealthStatus m heapUsed heapTotal).issues ↔
      ((s = "High average response time" ∧ m.averageResponseTime > 2000) ∨
       (s = "High error rate" ∧ (m.errorsTotal : ℚ) / max (m.total : ℚ) 1 > 0.05) ∨
       (s = "High memory usage" ∧ heapUsed / heapTotal > 0.9))) ∧
    (getHealthStatus m heapUsed heapTotal).issues.Nodup := by
  by_cases h1 : m.averageResponseTime > 2000 <;>
    by_cases h2 : (m.errorsTotal : ℚ) / max (m.total : ℚ) 1 > 0.05 <;>
      by_cases h3 : heapUsed / heapTotal > 0.9 <;>
        simp [getHealthStatus, h1, h2, h3]

/-- Witness for C2: with a running average of 3000 ms (and no errors, low
memory) the verdict is `"WARNING"`. -/
theorem getHealthStatus_warning_iff_witness :
    (getHealthStatus { initMetrics with averageResponseTime := 3000 } 0 1).status
      = "WARNING" :=
  ((getHealthStatus_warning_iff { initMetrics with averageResponseTime := 3000 } 0 1).1).mpr
    (Or.inl (by norm_num))

/-- C7: after any record-error operation at clock time `now`, every entry
remaining in the 24-hour error list is at most 24 hours older than `now`;
in particular no entry more than 24 hours old survives the pruning. -/
theorem errorMetricsStep_prunes (now : ℤ) (e : ErrorEntry) (l : List ErrorEntry) :
    ∀ err ∈ errorMetricsStep now e l, ¬(now - err.timestamp > oneDayMs) := by
  intro err herr
  simp only [errorMetricsStep, List.mem_filter, decide_eq_true_eq] at herr
  omega

/-- Witness for C7: the freshly inserted entry itself, at clock time
`oneDayMs`, starting from the empty list. -/
theorem errorMetricsStep_prunes_witness :
    ({ timestamp := oneDayMs, type := "E", message := "m", url := "/u", method := "GET",
        ip := "127.0.0.1" } : ErrorEntry) ∈
        errorMetricsStep oneDayMs
          ({ timestamp := 0, type := "E", message := "m", url := "/u", method := "GET",
             ip := "127.0.0.1" }) [] ∧
      ¬(oneDayMs - ({ timestamp := oneDayMs, type := "E", message := "m", url := "/u",
                      method := "GET", ip := "127.0.0.1" } : ErrorEntry).timestamp
          > oneDayMs) := by
  have hmem : ({ timestamp := oneDayMs, type := "E", message := "m", url := "/u",
                 method := "GET", ip := "127.0.0.1" } : ErrorEntry) ∈
      errorMetricsStep oneDayMs
        ({ timestamp := 0, type := "E", message := "m", url := "/u", method := "GET",
           ip := "127.0.0.1" }) [] := by decide
  exact ⟨hmem, errorMetricsStep_prunes oneDayMs _ [] _ hmem⟩

/-! ## Reference semantics of `getMetrics` (the snapshot)

`getMetrics` returns `{...metrics, timestamp, uptime, memory, cpu}`.  A JS
spread copies the top-level property *values*; for the five object-valued
properties (`requests`, `performance`, `errors`, `database`, `security`)
the copied value is the object reference itself.  We model the nested
objects through an explicit heap: an address per object, whose contents are
a field→value association list (the value type abstracts the counters; the
claim is about reference sharing, not about particular field values). -/

/-- Heap address of one of the aggregator's nested objects. -/
abbrev Addr := ℕ

/-- Contents of one nested metrics object: field name → numeric value. -/
abbrev SubObj := List (String × ℚ)

/-- The object heap. -/
abbrev Heap := Addr → SubObj

/-- The aggregator's five nested-object references, as held by the
module-level `metrics` object. -/
structure MetricsRefs where
  requests : Addr
  performance : Addr
  errors : Addr
  database : Addr
  security : Addr
deriving DecidableEq

/-- JS property assignment `obj.f = v` on an object's contents. -/
def updateObj (o : SubObj) (f : String) (v : ℚ) : SubObj :=
  (o.filter (fun e => e.1 != f)) ++ [(f, v)]

/-- Heap write through an object reference: `(*a).f = v`. -/
def setField (h : Heap) (a : Addr) (f : String) (v : ℚ) : Heap :=
  fun a' => if a' = a then updateObj (h a) f v else h a'

/-- `getMetrics()`: the spread `{...metrics, ...}` builds a fresh top-level
record whose five object-valued fields hold the aggregator's own object
references unchanged (the added `timestamp`/`uptime`/`memory`/`cpu` fields
are fresh scalars and are omitted from the reference model). -/
def getMetricsSnapshot (refs : MetricsRefs) : MetricsRefs :=
  { requests := refs.requests
    performance := refs.performance
    errors := refs.errors
    database := refs.database
    security := refs.security }

/-- Counterexample to C3: with the aggregator's `requests` object at
address 0 holding `total = 0`, one mutation through the snapshot returned
by `getMetrics` (`snapshot.requests.total = 999`) changes the aggregator's
own `requests` object, so the internal state is not unchanged. -/
theorem getMetricsSnapshot_not_deep_copy :
    (setField (fun _ => [("total", 0)])
        (getMetricsSnapshot ⟨0, 1, 2, 3, 4⟩).requests ("total") 999)
        (MetricsRefs.requests ⟨0, 1, 2, 3, 4⟩)
      ≠ (fun _ => [("total", (0 : ℚ))]) (MetricsRefs.requests ⟨0, 1, 2, 3, 4⟩) := by
  decide

/-- C3 (amended): `getMetrics` returns a shallow copy: the snapshot's five
nested counter objects are the aggregator's own live objects (the spread
copies their references), so a field write through any nested object of the
snapshot is a write to the aggregator's state; only the top-level record is
fresh. -/
theorem getMetricsSnapshot_shallow (refs : MetricsRefs) (h : Heap) (f : String) (v : ℚ) :
    (getMetricsSnapshot refs).requests = refs.requests ∧
    (getMetricsSnapshot refs).performance = refs.performance ∧
    (getMetricsSnapshot refs).errors = refs.errors ∧
    (getMetricsSnapshot refs).database = refs.database ∧
    (getMetricsSnapshot refs).security = refs.security ∧
    (setField h (getMetricsSnapshot refs).requests f v) refs.requests
      = updateObj (h refs.requests) f v ∧
    (setField h (getMetricsSnapshot refs).errors f v) refs.errors
      = updateObj (h refs.errors) f v := by
  refine ⟨rfl, rfl, rfl, rfl, rfl, ?_, ?_⟩ <;> simp [setField, getMetricsSnapshot]

/-! ## JSON body values and JavaScript coercions

Request-body values are modelled as an explicit sum type so that
JavaScript truthiness and the `Boolean()` / `parseFloat()` / `parseInt()`
coercions used by the controllers are explicit.  `none : Option ℚ` models
`NaN` as a parse result. -/

inductive JsVal where
  | undef
  | bool (b : Bool)
  | num (q : ℚ)
  | str (s : String)
deriving DecidableEq

/-- JavaScript truthiness (`!!v`): `undefined` and `false` are falsy, a
number is falsy iff it is `0`, a string is falsy iff it is empty. -/
def JsVal.truthy : JsVal → Bool
  | .undef => false
  | .bool b => b
  | .num q => decide (q ≠ 0)
  | .str s => decide (s ≠ "")

/-- `typeof v === "boolean"`. -/
def JsVal.isBoolean : JsVal → Bool
  | .bool _ => true
  | _ => false

/-- Numeric value of a big-endian list of decimal digit characters
(`'0'`–`'9'`), ignoring any leading `'0'` padding. -/
def charsVal (l : List Char) : ℕ :=
  l.foldl (fun a c => 10 * a + (c.toNat - 48)) 0

/-- `parseFloat` on the characters of a string: optional leading spaces and
sign, then decimal digits with an optional fractional part (`none` = `NaN`).
Exponent notation is outside the modelled input grammar. -/
def parseFloatChars (l : List Char) : Option ℚ :=
  let l1 := l.dropWhile (fun c => c = ' ')
  let neg : Bool := l1.head? = some '-'
  let l2 := if l1.head? = some '-' ∨ l1.head? = some '+' then l1.tail else l1
  let intPart := l2.takeWhile Char.isDigit
  let rest := l2.dropWhile Char.isDigit
  let fracPart := match rest with
    | '.' :: t => t.takeWhile Char.isDigit
    | _ => []
  if intPart = [] ∧ fracPart = [] then none
  else
    let v : ℚ := (charsVal intPart : ℚ) + (charsVal fracPart : ℚ) / ((10 ^ fracPart.length : ℕ) : ℚ)
    some (if neg then -v else v)

/-- Truncation toward zero, what `parseInt` applied to the decimal numeral
of a number performs (`num.tdiv den` is ⌊q⌋ for `q ≥ 0` and `-⌊-q⌋`
otherwise). -/
def truncQ (q : ℚ) : ℤ := q.num.tdiv q.den

/-- `parseInt` on the characters of a string: optional leading spaces and
sign, then decimal digits (`none` = `NaN`). -/
def parseIntChars (l : List Char) : Option ℤ :=
  let l1 := l.dropWhile (fun c => c = ' ')
  let neg : Bool := l1.head? = some '-'
  let l2 := if l1.head? = some '-' ∨ l1.head? = some '+' then l1.tail else l1
  let intPart := l2.takeWhile Char.isDigit
  if intPart = [] then none
  else some (if neg then -(charsVal intPart : ℤ) else (charsVal intPart : ℤ))

/-- `parseFloat(v)` on a body value (`none` = `NaN`; non-string non-number
arguments stringify to non-numeric text). -/
def parseFloatJs : JsVal → Option ℚ
  | .num q => some q
  | .str s => parseFloatChars s.data
  | _ => none

/-- `parseInt(v)` on a body value (`none` = `NaN`). -/
def parseIntJs : JsVal → Option ℤ
  | .num q => some (truncQ q)
  | .str s => parseIntChars s.data
  | _ => none

/-- `String.prototype.trim()` on the character list (common whitespace). -/
def isWhitespaceChar (c : Char) : Bool :=
  c = ' ' ∨ c = '\t' ∨ c = '\n' ∨ c = '\r'

/-- `s.trim()` modelled on character lists. -/
def jsTrim (s : String) : String :=
  String.mk (((s.data.dropWhile isWhitespaceChar).reverse.dropWhile isWhitespaceChar).reverse)

/-! ## Dish code generation -/

/-- Decimal digit characters of a natural number, most significant first
(model of `Number.prototype.toString()` on the ids generated by the store). -/
def natToChars (n : ℕ) : List Char :=
  if n = 0 then ['0']
  else ((Nat.digits 10 n).map (fun d => Char.ofNat (48 + d))).reverse

/-- `s.padStart(3, '0')` on the character list. -/
def padStart3 (l : List Char) : List Char :=
  List.replicate (3 - l.length) '0' ++ l

/-- `` `PRATO${novoId.toString().padStart(3, '0')}` `` — the dish code
derived from a freshly generated id. -/
def codigoOfId (n : ℕ) : String :=
  "PRATO" ++ String.mk (padStart3 (natToChars n))

/-! ## Lexicographic string order (database collation / name ordering) -/

/-- Lexicographic comparison of character lists by character code, the
order used for `ORDER BY nome_prato ASC`. -/
def charsLe : List Char → List Char → Bool
  | [], _ => true
  | _ :: _, [] => false
  | a :: as, b :: bs =>
      if a.toNat < b.toNat then true
      else if b.toNat < a.toNat then false
      else charsLe as bs

/-- Name order on strings. -/
def strLe (a b : String) : Prop := charsLe a.data b.data = true

instance : DecidableRel strLe := fun a b => by
  unfold strLe; infer_instance

theorem charsLe_total : ∀ a b : List Char, charsLe a b = true ∨ charsLe b a = true
  | [], _ => Or.inl rfl
  | _ :: _, [] => Or.inr rfl
  | a :: as, b :: bs => by
      rcases Nat.lt_trichotomy a.toNat b.toNat with h | h | h
      · left; simp [charsLe, h]
      · simp only [charsLe, h, lt_irrefl, if_false]
        exact charsLe_total as bs
      · right; simp [charsLe, h]

theorem charsLe_trans :
    ∀ a b c : List Char, charsLe a b = true → charsLe b c = true → charsLe a c = true
  | [], _, _ => by simp [charsLe]
  | _ :: _, [], _ => by simp [charsLe]
  | _ :: _, _ :: _, [] => by simp [charsLe]
  | a :: as, b :: bs, c :: cs => by
      intro h1 h2
      simp only [charsLe] at h1 h2 ⊢
      rcases Nat.lt_trichotomy a.toNat b.toNat with hab | hab | hab
      · rcases Nat.lt_trichotomy b.toNat c.toNat with hbc | hbc | hbc
        · rw [if_pos (show a.toNat < c.toNat by omega)]
        · rw [if_pos (show a.toNat < c.toNat by omega)]
        · rw [if_neg (show ¬b.toNat < c.toNat by omega), if_pos hbc] at h2
          exact absurd h2 (by simp)
      · rcases Nat.lt_trichotomy b.toNat c.toNat with hbc | hbc | hbc
        · rw [if_pos (show a.toNat < c.toNat by omega)]
        · rw [if_neg (show ¬a.toNat < b.toNat by omega),
            if_neg (show ¬b.toNat < a.toNat by omega)] at h1
          rw [if_neg (show ¬b.toNat < c.toNat by omega),
            if_neg (show ¬c.toNat < b.toNat by omega)] at h2
          rw [if_neg (show ¬a.toNat < c.toNat by omega),
            if_neg (show ¬c.toNat < a.toNat by omega)]
          exact charsLe_trans as bs cs h1 h2
        · rw [if_neg (show ¬b.toNat < c.toNat by omega), if_pos hbc] at h2
          exact absurd h2 (by simp)
      · rw [if_neg (show ¬a.toNat < b.toNat by omega), if_pos hab] at h1
        exact absurd h1 (by simp)

instance : IsTotal String strLe := ⟨fun a b => charsLe_total a.data b.data⟩

instance : IsTrans String strLe := ⟨fun a b c => charsLe_trans a.data b.data c.data⟩

/-! ## Persisted data model (tables `categorias` and `pratos`) -/

/-- A row of the `categorias` table. -/
structure Categoria where
  id_categoria : ℤ
  nome_categoria : String
  ordem_exibicao : ℤ
deriving DecidableEq

/-- A row of the `pratos` table.  `id_prato` is the `SERIAL` primary key
(a positive integer assigned by the store); `id_categoria` is stored as the
result of `parseInt` in the controllers, hence an integer. -/
structure Prato where
  id_prato : ℕ
  codigo_prato : String
  nome_prato : String
  descricao : String
  preco : ℚ
  disponivel : Bool
  id_categoria : ℤ
  tipo_item : String
deriving DecidableEq

/-- The persisted state: both tables. -/
structure Store where
  categorias : List Categoria
  pratos : List Prato
deriving DecidableEq

/-- `getCategoriaById(id)`: find the category whose id equals `parseInt(id)`
(`none` when the argument does not parse or no category matches). -/
def getCategoriaById (s : Store) (v : JsVal) : Option Categoria :=
  match parseIntJs v with
  | none => none
  | some k => s.categorias.find? (fun c => decide (c.id_categoria = k))

/-- `getPratoById(id)`: find the dish whose id equals `parseInt(id)`. -/
def getPratoById (s : Store) (v : JsVal) : Option Prato :=
  match parseIntJs v with
  | none => none
  | some k => s.pratos.find? (fun p => decide ((p.id_prato : ℤ) = k))

/-- The record the admin controller hands to the persistence layer's
`createPrato` after validating and coercing the request body (on which the
persistence layer's own re-coercions — `parseFloat`, `parseInt`, the
`disponivel`/`tipo_item` defaults — are the identity). -/
structure DadosPrato where
  nome_prato : String
  descricao : String
  preco : ℚ
  disponivel : Bool
  id_categoria : ℤ
  tipo_item : String
deriving DecidableEq

/-- Fresh dish id: `Math.max(...pratos.map(p => p.id_prato)) + 1` on a
nonempty store, else `1` (`models/database.js`; the Prisma variant computes
the same value via `findFirst` ordered by `id_prato` descending). -/
def novoId (pratos : List Prato) : ℕ :=
  match pratos.map (fun p => p.id_prato) with
  | [] => 1
  | x :: xs => xs.foldl max x + 1

/-- `createPrato(dadosPrato)`: generate the fresh id and derived code,
append the new row.  Models both `Database.createPrato` (JSON file) and
`PrismaDatabase.createPrato`. -/
def createPrato (pratos : List Prato) (d : DadosPrato) : Prato × List Prato :=
  let i := novoId pratos
  let novo : Prato :=
    { id_prato := i
      codigo_prato := codigoOfId i
      nome_prato := d.nome_prato
      descricao := d.descricao
      preco := d.preco
      disponivel := d.disponivel
      id_categoria := d.id_categoria
      tipo_item := d.tipo_item }
  (novo, pratos ++ [novo])

/-- Partial update record built by the admin controller for
`updatePrato(id, dadosAtualizacao)` (only the provided fields change). -/
structure DadosAtualizacao where
  nome_prato : Option String
  descricao : Option String
  preco : Option ℚ
  disponivel : Option Bool
  id_categoria : Option ℤ
deriving DecidableEq

/-- Application of a partial update to one row. -/
def applyAtualizacao (d : DadosAtualizacao) (p : Prato) : Prato :=
  { p with
    nome_prato := d.nome_prato.getD p.nome_prato
    descricao := d.descricao.getD p.descricao
    preco := d.preco.getD p.preco
    disponivel := d.disponivel.getD p.disponivel
    id_categoria := d.id_categoria.getD p.id_categoria }

/-- `updatePrato(id, dadosAtualizacao)`: update the row whose id matches
`parseInt(id)`, leaving all other rows unchanged. -/
def updatePrato (pratos : List Prato) (k : ℤ) (d : DadosAtualizacao) : List Prato :=
  pratos.map (fun p => if (p.id_prato : ℤ) = k then applyAtualizacao d p else p)

/-- `updateDisponibilidadePrato(id, disponivel)`: set only the availability
flag of the row whose id matches. -/
def updateDisponibilidadePrato (pratos : List Prato) (k : ℤ) (disp : Bool) : List Prato :=
  pratos.map (fun p => if (p.id_prato : ℤ) = k then { p with disponivel := disp } else p)

/-! ## Admin controller (`controllers/adminControllerPrisma.js`) -/

/-- Truthiness of an optional string field (`undefined` or the string's own
JS truthiness). -/
def optTruthy : Option String → Bool
  | none => false
  | some s => decide (s ≠ "")

/-- Body of `POST /api/admin/pratos`.  The free-text fields are modelled at
their intended JSON string type (or absent); `preco`, `id_categoria` and
`disponivel`, whose coercion behaviour the claims concern, stay raw. -/
structure CreateBody where
  nome_prato : Option String
  descricao : Option String
  preco : JsVal
  id_categoria : JsVal
  disponivel : JsVal
  tipo_item : Option String
deriving DecidableEq

/-- Outcome of `criarPrato`: HTTP 400 with an error label, or HTTP 201 with
the created dish. -/
inductive CreateResult where
  | badRequest (error : String)
  | created (p : Prato)
deriving DecidableEq

/-- `criarPrato(req, res)`: required-field truthiness check, category
existence check, price validation, then defaulting and creation. -/
def criarPrato (s : Store) (b : CreateBody) : CreateResult × Store :=
  if !(optTruthy b.nome_prato && optTruthy b.descricao &&
        b.preco.truthy && b.id_categoria.truthy) then
    (.badRequest ("Dados inválidos"), s)
  else
    match getCategoriaById s b.id_categoria with
    | none => (.badRequest ("Categoria inválida"), s)
    | some _ =>
        match parseFloatJs b.preco with
        | none => (.badRequest ("Preço inválido"), s)
        | some q =>
            if q < 0 then (.badRequest ("Preço inválido"), s)
            else
              let dados : DadosPrato :=
                { nome_prato := jsTrim (b.nome_prato.getD (""))
                  descricao := jsTrim (b.descricao.getD (""))
                  preco := q
                  id_categoria := (parseIntJs b.id_categoria).getD 0
                  disponivel := if b.disponivel = .undef then true else b.disponivel.truthy
                  tipo_item := match b.tipo_item with
                    | some t => if t = "" then "Cardápio" else t
                    | none => "Cardápio" }
              let r := createPrato s.pratos dados
              (.created r.1, { s with pratos := r.2 })

/-- Body of `PUT /api/admin/pratos/:id`. -/
structure UpdateBody where
  nome_prato : Option String
  descricao : Option String
  preco : JsVal
  id_categoria : JsVal
  disponivel : JsVal
deriving DecidableEq

/-- Outcome of `atualizarPrato`: 400, 404, or 200 with the updated dish. -/
inductive UpdateResult where
  | badRequest (error : String)
  | notFound
  | ok (p : Prato)
deriving DecidableEq

/-- `atualizarPrato(req, res)`: existence check, then per-field validation
(`nome_prato` non-blank after trim, `preco` parses non-negative,
`id_categoria` exists), then selective update; a present `disponivel` is
coerced with `Boolean(disponivel)`, i.e. JS truthiness. -/
def atualizarPrato (s : Store) (idParam : JsVal) (b : UpdateBody) : UpdateResult × Store :=
  match getPratoById s idParam with
  | none => (.notFound, s)
  | some p0 =>
      if (match b.nome_prato with
          | some n => decide (jsTrim n = "")
          | none => false) then
        (.badRequest ("Nome inválido"), s)
      else if (if b.preco = .undef then false else
          match parseFloatJs b.preco with
          | none => true
          | some q => decide (q < 0)) then
        (.badRequest ("Preço inválido"), s)
      else if (if b.id_categoria = .undef then false else
          (getCategoriaById s b.id_categoria).isNone) then
        (.badRequest ("Categoria inválida"), s)
      else
        let d : DadosAtualizacao :=
          { nome_prato := b.nome_prato.map jsTrim
            descricao := b.descricao.map jsTrim
            preco := if b.preco = .undef then none else parseFloatJs b.preco
            disponivel := if b.disponivel = .undef then none else some b.disponivel.truthy
            id_categoria := if b.id_categoria = .undef then none else parseIntJs b.id_categoria }
        let k := (parseIntJs idParam).getD 0
        (.ok (applyAtualizacao d p0), { s with pratos := updatePrato s.pratos k d })

/-- Outcome of `alterarDisponibilidade`: 400, 404, or 200 with the dish. -/
inductive ToggleResult where
  | badRequest
  | notFound
  | ok (p : Prato)
deriving DecidableEq

/-- `alterarDisponibilidade(req, res)` (`PATCH /:id/disponibilidade`):
rejects a body whose `disponivel` is absent or not `typeof === "boolean"`
before touching the store; otherwise flips only the availability flag. -/
def alterarDisponibilidade (s : Store) (idParam : JsVal) (disponivel : JsVal) :
    ToggleResult × Store :=
  if disponivel = .undef ∨ disponivel.isBoolean = false then
    (.badRequest, s)
  else
    match getPratoById s idParam with
    | none => (.notFound, s)
    | some p0 =>
        let k := (parseIntJs idParam).getD 0
        (.ok { p0 with disponivel := disponivel.truthy },
          { s with pratos := updateDisponibilidadePrato s.pratos k disponivel.truthy })

/-- Statistics block of the `getTodosPratos` admin listing. -/
structure Estatisticas where
  total_pratos : ℕ
  pratos_disponiveis : ℕ
  pratos_indisponiveis : ℕ
  categorias_ativas : ℕ
deriving DecidableEq

/-- The `estatisticas` object computed by `getTodosPratos`. -/
def getTodosPratosEstatisticas (s : Store) : Estatisticas :=
  { total_pratos := s.pratos.length
    pratos_disponiveis := (s.pratos.filter (fun p => p.disponivel)).length
    pratos_indisponiveis := (s.pratos.filter (fun p => !p.disponivel)).length
    categorias_ativas := s.categorias.length }

/-! ## Public menu (`getPratosDisponiveis`, Prisma variant)

This is the query behind `GET /api/cardapio` as wired by the routes
(`routes/cardapio.js` → `cardapioControllerPrisma` → `prismaDatabase`):
categories ordered by `ordem_exibicao`, each including its dishes with
`disponivel = true` ordered by `nome_prato`, then categories left with no
dish filtered out. -/

/-- One entry of the derived menu. -/
structure CardapioEntry where
  categoria : String
  ordem_exibicao : ℤ
  pratos : List Prato
deriving DecidableEq

/-- `ORDER BY ordem_exibicao ASC` on categories. -/
def catLe (a b : Categoria) : Prop := a.ordem_exibicao ≤ b.ordem_exibicao

instance : DecidableRel catLe := fun a b => Int.decLe _ _

instance : IsTotal Categoria catLe := ⟨fun a b => Int.le_total _ _⟩

instance : IsTrans Categoria catLe := ⟨fun _ _ _ => le_trans⟩

/-- `ORDER BY nome_prato ASC` on dishes. -/
def pratoLe (a b : Prato) : Prop := strLe a.nome_prato b.nome_prato

instance : DecidableRel pratoLe := fun a b =>
  (inferInstance : Decidable (strLe a.nome_prato b.nome_prato))

instance : IsTotal Prato pratoLe := ⟨fun a b => charsLe_total _ _⟩

instance : IsTrans Prato pratoLe := ⟨fun _ _ _ h1 h2 => charsLe_trans _ _ _ h1 h2⟩

/-- `getPratosDisponiveis()` on the store. -/
def getPratosDisponiveis (s : Store) : List CardapioEntry :=
  ((s.categorias.insertionSort catLe).map
      (fun c =>
        { categoria := c.nome_categoria
          ordem_exibicao := c.ordem_exibicao
          pratos := (s.pratos.filter
              (fun p => p.disponivel && decide (p.id_categoria = c.id_categoria))).insertionSort
            pratoLe })).filter
    (fun e => !e.pratos.isEmpty)

/-! ## Shared helper lemmas and sample data -/

theorem length_filter_add_length_filter_not (l : List α) (p : α → Bool) :
    (l.filter p).length + (l.filter (fun a => !p a)).length = l.length := by
  induction l with
  | nil => rfl
  | cons x xs ih =>
      by_cases h : p x <;> simp [List.filter_cons, h, ← ih] <;> omega

theorem foldl_max_bounds (l : List ℕ) (a : ℕ) :
    a ≤ l.foldl max a ∧ ∀ x ∈ l, x ≤ l.foldl max a := by
  induction l generalizing a with
  | nil => simp
  | cons y ys ih =>
      simp only [List.foldl_cons]
      obtain ⟨h1, h2⟩ := ih (max a y)
      refine ⟨le_trans (le_max_left a y) h1, ?_⟩
      intro x hx
      rcases List.mem_cons.mp hx with rfl | hx'
      · exact le_trans (le_max_right a x) h1
      · exact h2 x hx'

theorem novoId_cons (pratos : List Prato) (x : ℕ) (xs : List ℕ)
    (hm : pratos.map (fun q : Prato => q.id_prato) = x :: xs) :
    novoId pratos = xs.foldl max x + 1 := by
  rw [novoId, hm]

theorem novoId_gt (pratos : List Prato) : ∀ p ∈ pratos, p.id_prato < novoId pratos := by
  intro p hp
  have hmem : p.id_prato ∈ pratos.map (fun q : Prato => q.id_prato) :=
    List.mem_map_of_mem (fun q : Prato => q.id_prato) hp
  rcases hm : pratos.map (fun q : Prato => q.id_prato) with _ | ⟨x, xs⟩
  · rw [hm] at hmem; exact absurd hmem (List.not_mem_nil _)
  · rw [hm] at hmem
    rw [novoId_cons pratos x xs hm]
    rcases List.mem_cons.mp hmem with heq | hmem'
    · have := (foldl_max_bounds xs x).1; omega
    · have := (foldl_max_bounds xs x).2 _ hmem'; omega

/-- Concrete sample dish used by witnesses (integer price, so that all
arithmetic is kernel-evaluable). -/
def sampleDish : Prato :=
  { id_prato := 1, codigo_prato := "PRATO001",
    nome_prato := "Bruschetta", descricao := "Entrada italiana",
    preco := 10, disponivel := true, id_categoria := 1,
    tipo_item := "Cardápio" }

/-- Concrete sample state used by witnesses: one category, one available
dish. -/
def sampleStore : Store :=
  { categorias := [{ id_categoria := 1, nome_categoria := "Entradas", ordem_exibicao := 1 }]
    pratos := [sampleDish] }

/-! ## C10: the active-category statistic -/

/-- C10: in the admin listing statistics, `categorias_ativas` equals the
total number of stored categories — the sum of the count of categories with
at least one available dish and the count of those without any (i.e. empty
and all-unavailable categories are counted too). -/
theorem categoriasAtivas_counts_all (s : Store) :
    (getTodosPratosEstatisticas s).categorias_ativas = s.categorias.length ∧
    (getTodosPratosEstatisticas s).categorias_ativas
      = (s.categorias.filter (fun c =>
            s.pratos.any (fun p => p.disponivel && decide (p.id_categoria = c.id_categoria)))).length
        + (s.categorias.filter (fun c =>
            !(s.pratos.any (fun p => p.disponivel && decide (p.id_categoria = c.id_categoria))))).length := by
  refine ⟨rfl, ?_⟩
  rw [length_filter_add_length_filter_not]
  rfl

/-! ## C6: the availability toggle rejects non-boolean payloads -/

/-- C6: when the `disponivel` body field is absent or not a literal
boolean, `alterarDisponibilidade` answers 400 and leaves the store
untouched. -/
theorem alterarDisponibilidade_rejects_nonboolean (s : Store) (idParam v : JsVal)
    (hv : v.isBoolean = false) :
    (alterarDisponibilidade s idParam v).1 = .badRequest ∧
    (alterarDisponibilidade s idParam v).2 = s := by
  simp [alterarDisponibilidade, hv]

/-- Witness for C6 at the payload `{disponivel: "yes"}` on the sample
store. -/
theorem alterarDisponibilidade_rejects_nonboolean_witness :
    (JsVal.str ("yes")).isBoolean = false ∧
    (alterarDisponibilidade sampleStore (.str ("1")) (.str ("yes"))).1 = .badRequest ∧
    (alterarDisponibilidade sampleStore (.str ("1")) (.str ("yes"))).2 = sampleStore :=
  ⟨rfl, alterarDisponibilidade_rejects_nonboolean sampleStore (.str ("1")) (.str ("yes")) rfl⟩

/-! ## C9: fresh ids and unique derived codes in `createPrato` -/

theorem charsVal_append_zeros (k : ℕ) (l : List Char) :
    charsVal (List.replicate k '0' ++ l) = charsVal l := by
  induction k with
  | zero => simp
  | succ n ih =>
      simp only [List.replicate_succ, List.cons_append, charsVal, List.foldl_cons]
      have h0 : 10 * 0 + ('0'.toNat - 48) = 0 := by decide
      rw [h0]
      exact ih

theorem charsVal_encode (L : List ℕ) (hL : ∀ d ∈ L, d < 10) :
    charsVal ((L.map (fun d => Char.ofNat (48 + d))).reverse) = Nat.ofDigits 10 L := by
  induction L with
  | nil => simp [charsVal, Nat.ofDigits]
  | cons d L ih =>
      have hd : d < 10 := hL d (by simp)
      have hL' : ∀ e ∈ L, e < 10 := fun e he => hL e (by simp [he])
      have htoNat : (Char.ofNat (48 + d)).toNat = 48 + d := by
        interval_cases d <;> decide
      have key : charsVal ((L.map (fun e => Char.ofNat (48 + e))).reverse ++ [Char.ofNat (48 + d)])
          = 10 * charsVal ((L.map (fun e => Char.ofNat (48 + e))).reverse)
            + ((Char.ofNat (48 + d)).toNat - 48) := by
        simp [charsVal, List.foldl_append]
      simp only [List.map_cons, List.reverse_cons]
      rw [key, ih hL', htoNat, Nat.ofDigits_cons]
      omega

theorem charsVal_natToChars (n : ℕ) : charsVal (natToChars n) = n := by
  by_cases h : n = 0
  · subst h; decide
  · rw [natToChars, if_neg h,
      charsVal_encode _ (fun d hd => Nat.digits_lt_base (by norm_num) hd)]
    exact Nat.ofDigits_digits 10 n

theorem codigoOfId_injective : Function.Injective codigoOfId := by
  intro a b h
  have hdata : "PRATO".data ++ padStart3 (natToChars a)
      = "PRATO".data ++ padStart3 (natToChars b) := by
    have h2 := congrArg String.data h
    simpa [codigoOfId, String.data_append] using h2
  have hpad := List.append_cancel_left hdata
  have hval : charsVal (padStart3 (natToChars a)) = charsVal (padStart3 (natToChars b)) := by
    rw [hpad]
  rw [padStart3, padStart3, charsVal_append_zeros, charsVal_append_zeros,
    charsVal_natToChars, charsVal_natToChars] at hval
  exact hval

/-- C9: `createPrato` always assigns an id strictly greater than every
existing dish id (max + 1, or 1 on the empty store); hence on a store with
pairwise-distinct ids, the ids stay distinct after the create and the codes
derived from them (`codigoOfId`) stay pairwise distinct as well. -/
theorem createPrato_fresh_id (pratos : List Prato) (d : DadosPrato)
    (h : (pratos.map (fun p => p.id_prato)).Nodup) :
    (∀ p ∈ pratos, p.id_prato < (createPrato pratos d).1.id_prato) ∧
    ((createPrato pratos d).2.map (fun p => p.id_prato)).Nodup ∧
    ((createPrato pratos d).2.map (fun p => codigoOfId p.id_prato)).Nodup := by
  have hlt := novoId_gt pratos
  have hids : (createPrato pratos d).2.map (fun p => p.id_prato)
      = pratos.map (fun p => p.id_prato) ++ [novoId pratos] := by
    simp [createPrato]
  have hnodup : ((createPrato pratos d).2.map (fun p => p.id_prato)).Nodup := by
    rw [hids]
    refine h.append (List.nodup_singleton _) ?_
    intro x hx hx'
    rw [List.mem_singleton] at hx'
    subst hx'
    obtain ⟨p, hp, hpx⟩ := List.mem_map.mp hx
    exact absurd hpx (Nat.ne_of_lt (hlt p hp))
  refine ⟨fun p hp => hlt p hp, hnodup, ?_⟩
  have hcomp : (createPrato pratos d).2.map (fun p => codigoOfId p.id_prato)
      = ((createPrato pratos d).2.map (fun p => p.id_prato)).map codigoOfId := by
    rw [List.map_map]; rfl
  rw [hcomp]
  exact hnodup.map codigoOfId_injective

/-- Witness for C9 on the sample store (ids `[1]`, creating a second
dish). -/
theorem createPrato_fresh_id_witness :
    ((sampleStore.pratos.map (fun p => p.id_prato)).Nodup) ∧
    ((∀ p ∈ sampleStore.pratos,
        p.id_prato < (createPrato sampleStore.pratos
          { nome_prato := "Bolo", descricao := "x", preco := 10, disponivel := true,
            id_categoria := 1, tipo_item := "Cardápio" }).1.id_prato) ∧
      ((createPrato sampleStore.pratos
          { nome_prato := "Bolo", descricao := "x", preco := 10, disponivel := true,
            id_categoria := 1, tipo_item := "Cardápio" }).2.map (fun p => p.id_prato)).Nodup ∧
      ((createPrato sampleStore.pratos
          { nome_prato := "Bolo", descricao := "x", preco := 10, disponivel := true,
            id_categoria := 1, tipo_item := "Cardápio" }).2.map
          (fun p => codigoOfId p.id_prato)).Nodup) :=
  ⟨by decide, createPrato_fresh_id sampleStore.pratos _ (by decide)⟩

/-! ## C8: `Boolean()` coercion in the full update vs. the dedicated toggle -/

/-- C8: on an existing dish, a PUT body whose only field is a truthy
non-boolean `disponivel` (e.g. the string `"false"`) succeeds with 200 and
stores `disponivel = true` (the value is coerced with `Boolean()`, not
type-checked), while the dedicated toggle operation answers 400 to the same
value and leaves the store unchanged. -/
theorem mem_updatePrato {pratos : List Prato} {k : ℤ} {d : DadosAtualizacao} {q : Prato}
    (hq : q ∈ updatePrato pratos k d) :
    (∃ p ∈ pratos, (p.id_prato : ℤ) = k ∧ q = applyAtualizacao d p) ∨
    (q ∈ pratos ∧ (q.id_prato : ℤ) ≠ k) := by
  unfold updatePrato at hq
  obtain ⟨p, hp, hpq⟩ := List.mem_map.mp hq
  by_cases hid : (p.id_prato : ℤ) = k
  · rw [if_pos hid] at hpq
    exact Or.inl ⟨p, hp, hid, hpq.symm⟩
  · rw [if_neg hid] at hpq
    subst hpq
    exact Or.inr ⟨hp, hid⟩

theorem atualizarPrato_boolean_coercion (s : Store) (idParam v : JsVal) (p0 : Prato)
    (hfound : getPratoById s idParam = some p0)
    (hv : v.truthy = true) (hvb : v.isBoolean = false) :
    (atualizarPrato s idParam
        { nome_prato := none, descricao := none, preco := .undef,
          id_categoria := .undef, disponivel := v }).1
      = .ok { p0 with disponivel := true } ∧
    (∀ q ∈ (atualizarPrato s idParam
        { nome_prato := none, descricao := none, preco := .undef,
          id_categoria := .undef, disponivel := v }).2.pratos,
        ((q.id_prato : ℤ) = (parseIntJs idParam).getD 0 → q.disponivel = true) ∧
        ((q.id_prato : ℤ) ≠ (parseIntJs idParam).getD 0 → q ∈ s.pratos)) ∧
    (alterarDisponibilidade s idParam v).1 = .badRequest ∧
    (alterarDisponibilidade s idParam v).2 = s := by
  have hne : v ≠ .undef := by
    rintro rfl
    simp [JsVal.truthy] at hv
  have hrun : atualizarPrato s idParam
      { nome_prato := none, descricao := none, preco := .undef,
        id_categoria := .undef, disponivel := v }
      = (.ok { p0 with disponivel := true },
         { s with pratos := updatePrato s.pratos ((parseIntJs idParam).getD 0)
                    ({ nome_prato := none, descricao := none, preco := none,
                       disponivel := some true, id_categoria := none }) }) := by
    simp [atualizarPrato, hfound, hne, applyAtualizacao, hv]
  refine ⟨by rw [hrun], ?_, by simp [alterarDisponibilidade, hvb],
    by simp [alterarDisponibilidade, hvb]⟩
  intro q hq
  rw [hrun] at hq
  rcases mem_updatePrato hq with ⟨p, hp, hpk, rfl⟩ | ⟨hq', hk⟩
  · refine ⟨fun _ => rfl, fun hcontra => absurd ?_ hcontra⟩
    exact hpk
  · exact ⟨fun h => absurd h hk, fun _ => hq'⟩

/-- Witness for C8: updating the sample store's dish 1 with
`{disponivel: "false"}`. -/
theorem atualizarPrato_boolean_coercion_witness :
    getPratoById sampleStore (.str ("1")) = some sampleDish ∧
    (JsVal.str ("false")).truthy = true ∧
    (JsVal.str ("false")).isBoolean = false ∧
    ((atualizarPrato sampleStore (.str ("1"))
        { nome_prato := none, descricao := none, preco := .undef,
          id_categoria := .undef, disponivel := .str ("false") }).1
      = .ok { sampleDish with disponivel := true } ∧
    (∀ q ∈ (atualizarPrato sampleStore (.str ("1"))
        { nome_prato := none, descricao := none, preco := .undef,
          id_categoria := .undef, disponivel := .str ("false") }).2.pratos,
        ((q.id_prato : ℤ) = (parseIntJs (.str ("1"))).getD 0 → q.disponivel = true) ∧
        ((q.id_prato : ℤ) ≠ (parseIntJs (.str ("1"))).getD 0 → q ∈ sampleStore.pratos)) ∧
    (alterarDisponibilidade sampleStore (.str ("1")) (.str ("false"))).1 = .badRequest ∧
    (alterarDisponibilidade sampleStore (.str ("1")) (.str ("false"))).2 = sampleStore) :=
  ⟨by decide, by decide, by decide,
    atualizarPrato_boolean_coercion sampleStore (.str ("1")) (.str ("false"))
      sampleDish (by decide) (by decide) (by decide)⟩

/-! ## C4: dish creation -/

/-- Counterexample to C4 as stated: a create request supplying all four
required fields, whose price (the number `0`) parses to a non-negative
number and whose category id references an existing category, is rejected
with 400 (`!preco` treats the number `0` as missing) instead of answering
201. -/
theorem criarPrato_rejects_zero_price :
    parseFloatJs (.num 0) = some 0 ∧ (0 : ℚ) ≤ 0 ∧
    getCategoriaById sampleStore (.num 1) ≠ none ∧
    criarPrato sampleStore
      { nome_prato := some ("Bolo"), descricao := some ("x"), preco := .num 0,
        id_categoria := .num 1, disponivel := .undef, tipo_item := none }
      = (.badRequest ("Dados inválidos"), sampleStore) := by
  refine ⟨rfl, by decide, by decide, by decide⟩

/-- C4 (amended): a create request whose four required fields are supplied
as truthy values, whose price parses to a non-negative number and whose
category id resolves to an existing category, answers 201 with a dish
appended to the store, whose code is `PRATO` + the zero-padded next
sequential id, with availability defaulting to `true` and item-type
defaulting to `"Cardápio"` when omitted; a request with a falsy required
field (including a numeric price of `0` or an empty string), an
unresolvable category id, or a price that does not parse to a non-negative
number, answers 400 and leaves the store unchanged. -/
theorem criarPrato_spec (s : Store) (b : CreateBody) :
    (∀ (_ : optTruthy b.nome_prato = true) (_ : optTruthy b.descricao = true)
        (_ : b.preco.truthy = true) (_ : b.id_categoria.truthy = true)
        (c : Categoria) (_ : getCategoriaById s b.id_categoria = some c)
        (q : ℚ) (_ : parseFloatJs b.preco = some q) (_ : 0 ≤ q),
      ∃ p, criarPrato s b = (.created p, { s with pratos := s.pratos ++ [p] }) ∧
        p.id_prato = novoId s.pratos ∧
        p.codigo_prato = codigoOfId (novoId s.pratos) ∧
        p.preco = q ∧
        (b.disponivel = .undef → p.disponivel = true) ∧
        (b.tipo_item = none → p.tipo_item = "Cardápio")) ∧
    ((optTruthy b.nome_prato = false ∨ optTruthy b.descricao = false ∨
        b.preco.truthy = false ∨ b.id_categoria.truthy = false ∨
        getCategoriaById s b.id_categoria = none ∨
        parseFloatJs b.preco = none ∨
        (∃ q, parseFloatJs b.preco = some q ∧ q < 0)) →
      (∃ e, (criarPrato s b).1 = .badRequest e) ∧ (criarPrato s b).2 = s) := by
  constructor
  · intro hn hd hp hc c hcat q hq hq0
    have hfalse : (!(optTruthy b.nome_prato && optTruthy b.descricao &&
        b.preco.truthy && b.id_categoria.truthy)) = false := by
      rw [hn, hd, hp, hc]; rfl
    simp only [criarPrato, hfalse, Bool.false_eq_true, if_false, hcat, hq]
    rw [if_neg (not_lt.mpr hq0)]
    exact ⟨_, rfl, rfl, rfl, rfl, fun h => by simp [h, createPrato],
      fun h => by simp [h, createPrato]⟩
  · intro hbad
    by_cases hchk : (optTruthy b.nome_prato && optTruthy b.descricao &&
        b.preco.truthy && b.id_categoria.truthy) = true
    · rcases hbad with h | h | h | h | h | h | ⟨q, hq, hql⟩
      · simp [h] at hchk
      · simp [h] at hchk
      · simp [h] at hchk
      · simp [h] at hchk
      · exact ⟨⟨"Categoria inválida", by simp [criarPrato, hchk, h]⟩,
          by simp [criarPrato, hchk, h]⟩
      · rcases hcat : getCategoriaById s b.id_categoria with _ | c
        · exact ⟨⟨"Categoria inválida", by simp [criarPrato, hchk, hcat]⟩,
            by simp [criarPrato, hchk, hcat]⟩
        · exact ⟨⟨"Preço inválido", by simp [criarPrato, hchk, hcat, h]⟩,
            by simp [criarPrato, hchk, hcat, h]⟩
      · rcases hcat : getCategoriaById s b.id_categoria with _ | c
        · exact ⟨⟨"Categoria inválida", by simp [criarPrato, hchk, hcat]⟩,
            by simp [criarPrato, hchk, hcat]⟩
        · exact ⟨⟨"Preço inválido", by simp [criarPrato, hchk, hcat, hq, hql]⟩,
            by simp [criarPrato, hchk, hcat, hq, hql]⟩
    · have hfalse : (optTruthy b.nome_prato && optTruthy b.descricao &&
          b.preco.truthy && b.id_categoria.truthy) = false := by
        revert hchk
        cases optTruthy b.nome_prato && optTruthy b.descricao &&
          b.preco.truthy && b.id_categoria.truthy <;> simp
      refine ⟨⟨"Dados inválidos", ?_⟩, ?_⟩ <;> simp [criarPrato, hfalse]

/-- Witness for the C4 amended theorem: creating `Bolo` with price `10`
and existing category `1` on the sample store. -/
theorem criarPrato_spec_witness :
    optTruthy (some ("Bolo")) = true ∧ optTruthy (some ("x")) = true ∧
    (JsVal.num 10).truthy = true ∧ (JsVal.num 1).truthy = true ∧
    getCategoriaById sampleStore (.num 1)
      = some { id_categoria := 1, nome_categoria := "Entradas", ordem_exibicao := 1 } ∧
    parseFloatJs (.num 10) = some 10 ∧ (0 : ℚ) ≤ 10 ∧
    (∃ p, criarPrato sampleStore
        { nome_prato := some ("Bolo"), descricao := some ("x"), preco := .num 10,
          id_categoria := .num 1, disponivel := .undef, tipo_item := none }
        = (.created p,
           { sampleStore with pratos := sampleStore.pratos ++ [p] }) ∧
      p.id_prato = novoId sampleStore.pratos ∧
      p.codigo_prato = codigoOfId (novoId sampleStore.pratos) ∧
      p.preco = 10 ∧
      ((JsVal.undef : JsVal) = .undef → p.disponivel = true) ∧
      ((none : Option String) = none → p.tipo_item = "Cardápio")) :=
  ⟨by decide, by decide, by decide, by decide, by decide, rfl, by decide,
    (criarPrato_spec sampleStore
      { nome_prato := some ("Bolo"), descricao := some ("x"), preco := .num 10,
        id_categoria := .num 1, disponivel := .undef, tipo_item := none }).1
      (by decide) (by decide) (by decide) (by decide)
      { id_categoria := 1, nome_categoria := "Entradas", ordem_exibicao := 1 }
      (by decide) 10 rfl (by decide)⟩

/-! ## C5: the derived public menu -/

/-- C5: the derived menu lists, in display-order, exactly the categories
owning at least one available dish, each carrying exactly its available
dishes sorted by name ascending; categories without available dishes are
omitted. -/
theorem getPratosDisponiveis_spec (s : Store) :
    List.Sorted (fun a b : CardapioEntry => a.ordem_exibicao ≤ b.ordem_exibicao)
      (getPratosDisponiveis s) ∧
    (∀ e ∈ getPratosDisponiveis s,
      List.Sorted pratoLe e.pratos ∧
      e.pratos ≠ [] ∧
      ∃ c ∈ s.categorias, e.categoria = c.nome_categoria ∧
        e.ordem_exibicao = c.ordem_exibicao ∧
        (∀ p, p ∈ e.pratos ↔
          (p ∈ s.pratos ∧ p.disponivel = true ∧ p.id_categoria = c.id_categoria))) ∧
    (∀ c ∈ s.categorias,
      (∃ p ∈ s.pratos, p.disponivel = true ∧ p.id_categoria = c.id_categoria) →
      ∃ e ∈ getPratosDisponiveis s,
        e.categoria = c.nome_categoria ∧ e.ordem_exibicao = c.ordem_exibicao) := by
  refine ⟨?_, ?_, ?_⟩
  · have hs : List.Pairwise catLe (s.categorias.insertionSort catLe) :=
      List.sorted_insertionSort catLe s.categorias
    have hmap : List.Pairwise
        (fun a b : CardapioEntry => a.ordem_exibicao ≤ b.ordem_exibicao)
        ((s.categorias.insertionSort catLe).map
          (fun c =>
            { categoria := c.nome_categoria
              ordem_exibicao := c.ordem_exibicao
              pratos := (s.pratos.filter
                  (fun p => p.disponivel && decide (p.id_categoria = c.id_categoria))).insertionSort
                pratoLe })) := by
      rw [List.pairwise_map]
      exact hs
    exact hmap.filter _
  · intro e he
    rw [getPratosDisponiveis, List.mem_filter] at he
    obtain ⟨hemap, hne⟩ := he
    obtain ⟨c, hc, rfl⟩ := List.mem_map.mp hemap
    refine ⟨List.sorted_insertionSort pratoLe _, ?_, c,
      (List.mem_insertionSort catLe).mp hc, rfl, rfl, ?_⟩
    · intro hnil
      exact absurd hnil (by simpa using hne)
    · intro p
      rw [List.mem_insertionSort, List.mem_filter]
      simp
  · intro c hc ⟨p, hps, hpd, hpc⟩
    refine ⟨{ categoria := c.nome_categoria
              ordem_exibicao := c.ordem_exibicao
              pratos := (s.pratos.filter
                  (fun p => p.disponivel && decide (p.id_categoria = c.id_categoria))).insertionSort
                pratoLe }, ?_, rfl, rfl⟩
    rw [getPratosDisponiveis, List.mem_filter]
    constructor
    · exact List.mem_map.mpr ⟨c, (List.mem_insertionSort catLe).mpr hc, rfl⟩
    · have hpmem : p ∈ (s.pratos.filter
          (fun p => p.disponivel && decide (p.id_categoria = c.id_categoria))).insertionSort
            pratoLe := by
        rw [List.mem_insertionSort, List.mem_filter]
        simp [hps, hpd, hpc]
      have hne := List.ne_nil_of_mem hpmem
      simpa [List.isEmpty_iff] using hne

/-- Witness for C5: on the sample store, the category with an available
dish appears in the derived menu with its name and display order. -/
theorem getPratosDisponiveis_spec_witness :
    ({ id_categoria := 1, nome_categoria := "Entradas", ordem_exibicao := 1 } : Categoria)
        ∈ sampleStore.categorias ∧
    (∃ p ∈ sampleStore.pratos, p.disponivel = true ∧ p.id_categoria = (1 : ℤ)) ∧
    ∃ e ∈ getPratosDisponiveis sampleStore,
      e.categoria = "Entradas" ∧ e.ordem_exibicao = 1 :=
  ⟨by decide, ⟨sampleDish, by decide, by decide, by decide⟩,
    (getPratosDisponiveis_spec sampleStore).2.2
      { id_categoria := 1, nome_categoria := "Entradas", ordem_exibicao := 1 }
      (by decide) ⟨sampleDish, by decide, by decide, by decide⟩⟩

end Mandacafe
